import Mathlib

/-!
Verification of the two-region cooperation ODE model
(`InternationalCooperationModel.py`) against its specification.

Real numbers carried by the Python program (NumPy floats) are modelled as
exact rationals `ℚ`; the one place where NumPy float semantics is observable
(division by zero in `calculate_metrics`, which warns and produces a
non-finite value instead of raising) is modelled by the explicit `NpFloat`
type.  `scipy.integrate.odeint` is external library code, modelled from the
spec (see `odeint` below).
-/

namespace CoopModel

/-- The method `cooperation_dynamics(self, state, t, a, b, c, d)`:
unpacks `region1, region2 = state` and returns the derivative pair
`[d_region1, d_region2]`.  The time argument `t` is accepted (odeint passes
it) but unused. -/
def cooperation_dynamics (state : ℚ × ℚ) (t : ℚ) (a b c d : ℚ) : ℚ × ℚ :=
  (a * state.1 * (1 - state.1 / 100) + b * state.1 * state.2 / (1 + state.2),
   c * state.2 * (1 - state.2 / 100) + d * state.1 * state.2 / (1 + state.1))

/-- The four parameter attributes set on `self` in
`InternationalCooperationModel.__init__`. -/
structure Model where
  tech_transfer_rate : ℚ
  trade_growth_rate : ℚ
  collaboration_factor : ℚ
  resource_constraint : ℚ

/-- `__init__` assigns `tech_transfer_rate = 0.3`, `trade_growth_rate = 0.2`,
`collaboration_factor = 0.4`, `resource_constraint = 0.1`. -/
def initModel : Model :=
  ⟨3/10, 1/5, 2/5, 1/10⟩

/-- `np.linspace(a, b, n)` with the default `endpoint=True`: the `n` samples
`a + (b - a) * i / (n - 1)`, `i = 0, …, n-1`.  For `n = 1` NumPy returns
`[a]`; the formula below agrees because `ℚ` division by zero is zero. -/
def linspace (a b : ℚ) (n : ℕ) : List ℚ :=
  (List.range n).map (fun (i : ℕ) => a + (b - a) * (i : ℚ) / ((n - 1 : ℕ) : ℚ))

/-- The time grid `t = np.linspace(0, years, years*12)` built in
`simulate_cooperation`. -/
def sim_tgrid (years : ℕ) : List ℚ :=
  linspace 0 years (years * 12)

/-- The tuple `params = (self.tech_transfer_rate, self.trade_growth_rate,
self.collaboration_factor, self.resource_constraint)` that
`simulate_cooperation` passes positionally to the dynamics arguments
`(a, b, c, d)` via `odeint(..., args=params)`. -/
def sim_params (m : Model) : ℚ × ℚ × ℚ × ℚ :=
  (m.tech_transfer_rate, m.trade_growth_rate, m.collaboration_factor,
   m.resource_constraint)

/-- The right-hand-side function `odeint` integrates in
`simulate_cooperation`: `cooperation_dynamics` applied to the `sim_params`
tuple. -/
def sim_rhs (m : Model) (state : ℚ × ℚ) (t : ℚ) : ℚ × ℚ :=
  cooperation_dynamics state t (sim_params m).1 (sim_params m).2.1
    (sim_params m).2.2.1 (sim_params m).2.2.2

/-- One explicit one-step update of size `dt` from state `x` at time `t`. -/
def eulerStep (f : ℚ × ℚ → ℚ → ℚ × ℚ) (x : ℚ × ℚ) (t dt : ℚ) : ℚ × ℚ :=
  (x.1 + dt * (f x t).1, x.2 + dt * (f x t).2)

/-- States at the times `t :: ts`, starting from `x` at time `t`, stepping
with `eulerStep` across each consecutive gap. -/
def eulerFrom (f : ℚ × ℚ → ℚ → ℚ × ℚ) : ℚ × ℚ → ℚ → List ℚ → List (ℚ × ℚ)
  | x, _, [] => [x]
  | x, t, t' :: ts => x :: eulerFrom f (eulerStep f x t (t' - t)) t' ts

/-- Modelled from the spec: `scipy.integrate.odeint` is external library code
(not part of this repository).  Spec §4.2 requires the Integrator to drive
the dynamics function across the TimeGrid and produce one State per grid
point, the first being the initial state; the internal stepping scheme is an
implementation detail (only grid-point values are observable).  It is
modelled here as a fixed-step explicit one-step method on the grid. -/
def odeint (f : ℚ × ℚ → ℚ → ℚ × ℚ) (y0 : ℚ × ℚ) (t : List ℚ) : List (ℚ × ℚ) :=
  match t with
  | [] => []
  | t0 :: ts => eulerFrom f y0 t0 ts

/-- Default value of the `years` argument of `simulate_cooperation`. -/
def default_years : ℕ := 50

/-- `simulate_cooperation(self, years=50)`: builds the grid, the initial
state `[20, 20]`, the parameter tuple, and returns `(t, solution)`. -/
def simulate_cooperation (m : Model) (years : ℕ) : List ℚ × List (ℚ × ℚ) :=
  (sim_tgrid years, odeint (sim_rhs m) (20, 20) (sim_tgrid years))

/-- Result of a NumPy float division: a finite value, or one of the IEEE
non-finite values that NumPy produces on division by zero (under the default
error state it emits a RuntimeWarning and continues, it does not raise). -/
inductive NpFloat where
  | finite (q : ℚ)
  | nan
  | inf
  | ninf
deriving DecidableEq

/-- NumPy scalar division `x / y`: exact division when `y ≠ 0`; when `y = 0`
it does not raise but yields `inf`, `-inf` or `nan` according to the sign of
the numerator. -/
def npDiv (x y : ℚ) : NpFloat :=
  if y ≠ 0 then NpFloat.finite (x / y)
  else if 0 < x then NpFloat.inf
  else if x < 0 then NpFloat.ninf
  else NpFloat.nan

/-- The four entries of the dict returned by `calculate_metrics`, in
insertion order. -/
structure Metrics where
  region1_final : ℚ
  region2_final : ℚ
  total_growth : ℚ
  synergy_index : NpFloat
deriving DecidableEq

/-- `calculate_metrics(self, solution)`: reads `solution[-1]` and
`solution[0]` (indexing an empty array would raise IndexError, hence the
`Option`), and computes the four metrics; the `synergy_index` division is
NumPy float division. -/
def calculate_metrics (solution : List (ℚ × ℚ)) : Option Metrics :=
  match solution.head?, solution.getLast? with
  | some s0, some sl =>
      some ⟨sl.1, sl.2, (sl.1 + sl.2) - (s0.1 + s0.2),
            npDiv (sl.1 * sl.2) (s0.1 * s0.2)⟩
  | _, _ => none

/-- Claim C1: for every state pair with both components different from `-1`
and all parameters, `cooperation_dynamics` returns exactly the derivative
pair `d_region1 = a*r1*(1 - r1/100) + b*r1*r2/(1 + r2)`,
`d_region2 = c*r2*(1 - r2/100) + d*r1*r2/(1 + r1)`. -/
theorem claim1_dynamics_formula (r1 r2 t a b c d : ℚ)
    (h1 : r1 ≠ -1) (h2 : r2 ≠ -1) :
    cooperation_dynamics (r1, r2) t a b c d =
      (a * r1 * (1 - r1 / 100) + b * r1 * r2 / (1 + r2),
       c * r2 * (1 - r2 / 100) + d * r1 * r2 / (1 + r1)) := rfl

/-- Witness for C1 at the concrete input `state = (20, 30)`, `t = 0`,
`(a, b, c, d) = (1, 2, 3, 4)`. -/
theorem claim1_dynamics_formula_witness :
    ((20 : ℚ) ≠ -1) ∧ ((30 : ℚ) ≠ -1) ∧
      cooperation_dynamics (20, 30) 0 1 2 3 4 =
        (1 * 20 * (1 - 20 / 100) + 2 * 20 * 30 / (1 + 30),
         3 * 30 * (1 - 30 / 100) + 4 * 20 * 30 / (1 + 20)) :=
  ⟨by norm_num, by norm_num,
    claim1_dynamics_formula 20 30 0 1 2 3 4 (by norm_num) (by norm_num)⟩

/-- Claim C10: the system is autonomous — `cooperation_dynamics` never reads
its time argument, so its output is identical at any two times. -/
theorem claim10_autonomous (state : ℚ × ℚ) (a b c d t t' : ℚ) :
    cooperation_dynamics state t a b c d =
      cooperation_dynamics state t' a b c d := rfl

/-- Claim C2 counterexample: in the default run the positional arguments
`(a, b, c, d)` do NOT receive `(0.3, 0.4, 0.2, 0.1)` — the tuple actually
passed is `(0.3, 0.2, 0.4, 0.1)` — and the integrand used by the simulation
observably differs at state `(20, 20)` from the dynamics evaluated with the
claimed argument values. -/
theorem claim2_default_args_counterexample :
    sim_params initModel ≠ (3/10, 2/5, 1/5, 1/10) ∧
      sim_rhs initModel (20, 20) 0 ≠
        cooperation_dynamics (20, 20) 0 (3/10) (2/5) (1/5) (1/10) := by
  refine ⟨fun hcontra => ?_, fun hcontra => ?_⟩
  · have h := congrArg (fun p => p.2.1) hcontra
    norm_num [sim_params, initModel] at h
  · have h := congrArg Prod.fst hcontra
    norm_num [sim_rhs, sim_params, initModel, cooperation_dynamics] at h

/-- Claim C2 amended: the default run passes
`(tech_transfer_rate, trade_growth_rate, collaboration_factor,
resource_constraint) = (0.3, 0.2, 0.4, 0.1)` positionally to `(a, b, c, d)`:
`b` receives the trade growth rate `0.2` and `c` the collaboration factor
`0.4`. -/
theorem claim2_default_args_amended :
    sim_params initModel = (3/10, 1/5, 2/5, 1/10) ∧
      ∀ (s : ℚ × ℚ) (t : ℚ),
        sim_rhs initModel s t =
          cooperation_dynamics s t (3/10) (1/5) (2/5) (1/10) :=
  ⟨rfl, fun _ _ => rfl⟩

/-- NumPy division by a nonzero denominator is plain exact division. -/
theorem npDiv_of_ne (x y : ℚ) (hy : y ≠ 0) : npDiv x y = NpFloat.finite (x / y) := by
  unfold npDiv
  simp [hy]

/-- NumPy division by zero never produces a finite value. -/
theorem npDiv_zero_not_finite (x q : ℚ) : npDiv x 0 ≠ NpFloat.finite q := by
  unfold npDiv
  split_ifs with h1 h2 h3
  · exact absurd rfl h1
  · exact fun hcontra => NpFloat.noConfusion hcontra
  · exact fun hcontra => NpFloat.noConfusion hcontra
  · exact fun hcontra => NpFloat.noConfusion hcontra

/-- On a nonempty trajectory, `calculate_metrics` succeeds and returns the
record built from the first and last entries. -/
theorem calculate_metrics_eq (sol : List (ℚ × ℚ)) (h : sol ≠ []) :
    calculate_metrics sol =
      some ⟨(sol.getLast h).1, (sol.getLast h).2,
            ((sol.getLast h).1 + (sol.getLast h).2) -
              ((sol.head h).1 + (sol.head h).2),
            npDiv ((sol.getLast h).1 * (sol.getLast h).2)
              ((sol.head h).1 * (sol.head h).2)⟩ := by
  unfold calculate_metrics
  rw [List.head?_eq_head h, List.getLast?_eq_getLast_of_ne_nil h]

/-- Claim C3 counterexample: on the trajectory `[(0, 0)]` (first entry has a
zero component) `calculate_metrics` does NOT signal any error — it silently
returns a metrics record, whose `synergy_index` is NaN. -/
theorem claim3_zero_initial_counterexample :
    calculate_metrics [((0 : ℚ), (0 : ℚ))] =
      some ⟨0, 0, 0, NpFloat.nan⟩ := by
  rw [calculate_metrics_eq _ (by simp)]
  norm_num [npDiv]

/-- Claim C3 amended: if either component of the first trajectory entry is
zero, `calculate_metrics` raises nothing: NumPy float division only warns, so
the metrics are returned silently with a non-finite `synergy_index` (NaN for
the all-zero first entry). -/
theorem claim3_zero_initial_amended (first : ℚ × ℚ) (rest : List (ℚ × ℚ))
    (h : first.1 = 0 ∨ first.2 = 0) :
    ∃ m, calculate_metrics (first :: rest) = some m ∧
      ∀ q : ℚ, m.synergy_index ≠ NpFloat.finite q := by
  have hne : first :: rest ≠ [] := by simp
  refine ⟨_, calculate_metrics_eq (first :: rest) hne, ?_⟩
  intro q
  have hd : ((first :: rest).head hne) = first := rfl
  have hzero : ((first :: rest).head hne).1 * ((first :: rest).head hne).2 = 0 := by
    rw [hd]
    rcases h with h | h <;> rw [h] <;> ring
  rw [hzero]
  exact npDiv_zero_not_finite _ q

/-- Witness for the amended C3 at the concrete trajectory `[(0, 0)]`. -/
theorem claim3_zero_initial_amended_witness :
    (((0 : ℚ), (0 : ℚ)).1 = 0 ∨ ((0 : ℚ), (0 : ℚ)).2 = 0) ∧
      ∃ m, calculate_metrics [((0 : ℚ), (0 : ℚ))] = some m ∧
        ∀ q : ℚ, m.synergy_index ≠ NpFloat.finite q :=
  ⟨Or.inl rfl, claim3_zero_initial_amended ((0 : ℚ), (0 : ℚ)) [] (Or.inl rfl)⟩

/-- Claim C4: for every trajectory with at least one entry, the Total Growth
metric equals the sum of the last entry's components minus the sum of the
first entry's components. -/
theorem claim4_total_growth (sol : List (ℚ × ℚ)) (h : sol ≠ []) :
    ∃ m, calculate_metrics sol = some m ∧
      m.total_growth =
        ((sol.getLast h).1 + (sol.getLast h).2) -
          ((sol.head h).1 + (sol.head h).2) :=
  ⟨_, calculate_metrics_eq sol h, rfl⟩

/-- The concrete two-entry trajectory used by the C4 witness. -/
def w4sol : List (ℚ × ℚ) := [(1, 2), (4, 8)]

/-- Witness for C4 at the trajectory `[(1, 2), (4, 8)]`, whose total growth
is `(4 + 8) - (1 + 2) = 9`. -/
theorem claim4_total_growth_witness :
    w4sol ≠ [] ∧
      (∃ m, calculate_metrics w4sol = some m ∧
        m.total_growth =
          ((w4sol.getLast (by simp [w4sol])).1 + (w4sol.getLast (by simp [w4sol])).2) -
            ((w4sol.head (by simp [w4sol])).1 + (w4sol.head (by simp [w4sol])).2)) ∧
      ((w4sol.getLast (by simp [w4sol])).1 + (w4sol.getLast (by simp [w4sol])).2) -
          ((w4sol.head (by simp [w4sol])).1 + (w4sol.head (by simp [w4sol])).2) = 9 :=
  ⟨by simp [w4sol], claim4_total_growth w4sol (by simp [w4sol]), by norm_num [w4sol]⟩

/-- Claim C5: on a trajectory whose first entry has both components nonzero,
the Synergy Index is the finite ratio
`(last.1 * last.2) / (first.1 * first.2)`; in particular it is `1` whenever
the last entry equals the first. -/
theorem claim5_synergy_index (sol : List (ℚ × ℚ)) (h : sol ≠ [])
    (h1 : (sol.head h).1 ≠ 0) (h2 : (sol.head h).2 ≠ 0) :
    ∃ m, calculate_metrics sol = some m ∧
      m.synergy_index =
        NpFloat.finite (((sol.getLast h).1 * (sol.getLast h).2) /
          ((sol.head h).1 * (sol.head h).2)) ∧
      (sol.getLast h = sol.head h → m.synergy_index = NpFloat.finite 1) := by
  have hden : (sol.head h).1 * (sol.head h).2 ≠ 0 := mul_ne_zero h1 h2
  refine ⟨_, calculate_metrics_eq sol h, npDiv_of_ne _ _ hden, ?_⟩
  intro heq
  rw [heq, npDiv_of_ne _ _ hden, div_self hden]

/-- The concrete one-entry trajectory used by the C5 witness. -/
def w5sol : List (ℚ × ℚ) := [(2, 3)]

/-- Witness for C5 at the trajectory `[(2, 3)]`: first = last, so the
synergy index is the finite ratio and equals `1`. -/
theorem claim5_synergy_index_witness :
    w5sol ≠ [] ∧ (w5sol.head (by simp [w5sol])).1 ≠ 0 ∧
      (w5sol.head (by simp [w5sol])).2 ≠ 0 ∧
      ∃ m, calculate_metrics w5sol = some m ∧
        m.synergy_index =
          NpFloat.finite (((w5sol.getLast (by simp [w5sol])).1 *
              (w5sol.getLast (by simp [w5sol])).2) /
            ((w5sol.head (by simp [w5sol])).1 * (w5sol.head (by simp [w5sol])).2)) ∧
        (w5sol.getLast (by simp [w5sol]) = w5sol.head (by simp [w5sol]) →
          m.synergy_index = NpFloat.finite 1) :=
  ⟨by simp [w5sol], by norm_num [w5sol], by norm_num [w5sol],
    claim5_synergy_index w5sol (by simp [w5sol]) (by norm_num [w5sol])
      (by norm_num [w5sol])⟩

/-- Closed form of the grid entries: the `i`-th time point (of `years * 12`)
is `years * i / (years * 12 - 1)`. -/
theorem sim_tgrid_getD (years i : ℕ) (hi : i < years * 12) :
    (sim_tgrid years).getD i 0 =
      (years : ℚ) * i / ((years * 12 - 1 : ℕ) : ℚ) := by
  unfold sim_tgrid linspace
  rw [List.getD_eq_getElem?_getD, List.getElem?_map, List.getElem?_range hi]
  simp

/-- Claim C7 counterexample: the default 50-year grid has 600 points, but its
consecutive points are `50/599` apart, not `1/12`. -/
theorem claim7_grid_counterexample :
    (sim_tgrid 50).length = 600 ∧
      (sim_tgrid 50).getD 1 0 - (sim_tgrid 50).getD 0 0 = 50 / 599 ∧
      (50 / 599 : ℚ) ≠ 1 / 12 := by
  refine ⟨?_, ?_, by norm_num⟩
  · simp [sim_tgrid, linspace]
  · rw [sim_tgrid_getD 50 1 (by norm_num), sim_tgrid_getD 50 0 (by norm_num)]
    norm_num

/-- Claim C7 amended: for a horizon of `years ≥ 1` units, the grid is the
evenly spaced increasing sequence of `years * 12` points from `0` to
`years`, with consecutive points exactly `years / (years * 12 - 1)` apart
(for the default 50-year horizon: 600 points spaced `50/599`, slightly more
than `1/12`; the density of 12 points per unit time holds only as a point
count, not as a spacing of exactly `1/12`). -/
theorem claim7_grid_amended (years i : ℕ) (hy : 1 ≤ years)
    (hi : i + 1 < years * 12) :
    (sim_tgrid years).length = years * 12 ∧
      (sim_tgrid years).getD 0 0 = 0 ∧
      (sim_tgrid years).getD (years * 12 - 1) 0 = (years : ℚ) ∧
      (sim_tgrid years).getD (i + 1) 0 - (sim_tgrid years).getD i 0 =
        (years : ℚ) / ((years * 12 - 1 : ℕ) : ℚ) ∧
      (sim_tgrid years).getD i 0 < (sim_tgrid years).getD (i + 1) 0 := by
  have h12 : 12 ≤ years * 12 := by omega
  have hden : ((years * 12 - 1 : ℕ) : ℚ) ≠ 0 := by
    have : years * 12 - 1 ≠ 0 := by omega
    exact_mod_cast this
  have hdenpos : (0 : ℚ) < ((years * 12 - 1 : ℕ) : ℚ) := by
    have : 0 < years * 12 - 1 := by omega
    exact_mod_cast this
  have hdiff : (sim_tgrid years).getD (i + 1) 0 - (sim_tgrid years).getD i 0 =
      (years : ℚ) / ((years * 12 - 1 : ℕ) : ℚ) := by
    rw [sim_tgrid_getD years (i + 1) hi, sim_tgrid_getD years i (by omega),
      div_sub_div_same]
    rw [show (years : ℚ) * (i + 1 : ℕ) - (years : ℚ) * i = (years : ℚ) by
      push_cast
      ring]
  refine ⟨by simp [sim_tgrid, linspace], ?_, ?_, hdiff, ?_⟩
  · rw [sim_tgrid_getD years 0 (by omega)]
    norm_num
  · rw [sim_tgrid_getD years (years * 12 - 1) (by omega)]
    rw [mul_div_assoc, div_self hden, mul_one]
  · have hpos : 0 < (years : ℚ) / ((years * 12 - 1 : ℕ) : ℚ) := by
      apply div_pos _ hdenpos
      exact_mod_cast hy
    linarith [hdiff]

/-- Witness for the amended C7 at `years = 1`, `i = 0`: twelve points from
`0` to `1`, spaced `1/11`. -/
theorem claim7_grid_amended_witness :
    (sim_tgrid 1).length = 1 * 12 ∧
      (sim_tgrid 1).getD 0 0 = 0 ∧
      (sim_tgrid 1).getD (1 * 12 - 1) 0 = ((1 : ℕ) : ℚ) ∧
      (sim_tgrid 1).getD (0 + 1) 0 - (sim_tgrid 1).getD 0 0 =
        ((1 : ℕ) : ℚ) / ((1 * 12 - 1 : ℕ) : ℚ) ∧
      (sim_tgrid 1).getD 0 0 < (sim_tgrid 1).getD (0 + 1) 0 :=
  claim7_grid_amended 1 0 (by norm_num) (by norm_num)

/-- Pointwise parameter/state symmetry of the dynamics: evaluating with the
parameter blocks swapped, at the swapped state, gives the swapped derivative
pair. -/
theorem cooperation_dynamics_swap (a b c d x y t : ℚ) :
    cooperation_dynamics (y, x) t c d a b =
      ((cooperation_dynamics (x, y) t a b c d).2,
       (cooperation_dynamics (x, y) t a b c d).1) := by
  unfold cooperation_dynamics
  refine Prod.ext ?_ ?_ <;> simp only [] <;> ring

/-- The stepping scheme commutes with the component swap whenever the two
right-hand sides are swaps of one another. -/
theorem eulerFrom_swap (f g : ℚ × ℚ → ℚ → ℚ × ℚ)
    (hfg : ∀ s t, g (s.2, s.1) t = ((f s t).2, (f s t).1)) :
    ∀ (ts : List ℚ) (t : ℚ) (x : ℚ × ℚ),
      eulerFrom g (x.2, x.1) t ts =
        (eulerFrom f x t ts).map (fun p => (p.2, p.1))
  | [], _, _ => rfl
  | t' :: ts, t, x => by
    have hstep : eulerStep g (x.2, x.1) t (t' - t) =
        ((eulerStep f x t (t' - t)).2, (eulerStep f x t (t' - t)).1) := by
      unfold eulerStep
      rw [hfg]
    simp only [eulerFrom, List.map_cons]
    rw [hstep, eulerFrom_swap f g hfg ts t' (eulerStep f x t (t' - t))]

/-- Claim C6: for all parameters, initial state and time grid, the trajectory
integrated with parameters `(c, d, a, b)` from the initial state `(y, x)` is,
at every grid point, the component swap of the trajectory integrated with
`(a, b, c, d)` from `(x, y)`. -/
theorem claim6_parameter_state_symmetry (a b c d x y : ℚ) (ts : List ℚ) :
    odeint (fun s t => cooperation_dynamics s t c d a b) (y, x) ts =
      (odeint (fun s t => cooperation_dynamics s t a b c d) (x, y) ts).map
        (fun p => (p.2, p.1)) := by
  cases ts with
  | nil => rfl
  | cons t0 rest =>
    have h := eulerFrom_swap (fun s t => cooperation_dynamics s t a b c d)
      (fun s t => cooperation_dynamics s t c d a b)
      (fun s t => cooperation_dynamics_swap a b c d s.1 s.2 t) rest t0 (x, y)
    simpa [odeint] using h

/-- The dynamics at the parameters named by the spec's concrete scenario:
`a = 0.3`, `b = 0.4`, `c = 0.2`, `d = 0.1`. -/
def dyn8t (s : ℚ × ℚ) (t : ℚ) : ℚ × ℚ :=
  cooperation_dynamics s t (3/10) (2/5) (1/5) (1/10)

/-- The constant gap of the default 50-year grid: `50 / 599`. -/
def h8 : ℚ := 50 / 599

/-- One grid step of the modelled integrator under `dyn8t`. -/
def F8 (x : ℚ × ℚ) : ℚ × ℚ :=
  (x.1 + h8 * (dyn8t x 0).1, x.2 + h8 * (dyn8t x 0).2)

/-- The region `[0, 234] × [0, 150]`, forward invariant for `F8` and large
enough to contain the scenario's trajectory. -/
def Inv8 (x : ℚ × ℚ) : Prop :=
  0 ≤ x.1 ∧ x.1 ≤ 234 ∧ 0 ≤ x.2 ∧ x.2 ≤ 150

/-- Componentwise order on states. -/
def le2 (p q : ℚ × ℚ) : Prop := p.1 ≤ q.1 ∧ p.2 ≤ q.2

/-- The invariant region is preserved by one grid step. -/
theorem inv8_step (x : ℚ × ℚ) (hx : Inv8 x) : Inv8 (F8 x) := by
  obtain ⟨hu0, hu1, hv0, hv1⟩ := hx
  set u := x.1 with hu
  set v := x.2 with hv
  have huv1 : (0 : ℚ) < 1 + v := by linarith
  have huu1 : (0 : ℚ) < 1 + u := by linarith
  have hcoup1 : (2/5 : ℚ) * u * v / (1 + v) = (2/5) * (u * (v / (1 + v))) := by
    field_simp
    ring
  have hcoup2 : (1/10 : ℚ) * u * v / (1 + u) = (1/10) * (v * (u / (1 + u))) := by
    field_simp
    ring
  have hs0 : (0 : ℚ) ≤ v / (1 + v) := div_nonneg hv0 huv1.le
  have hs1 : v / (1 + v) ≤ 150 / 151 := by
    rw [div_le_div_iff₀ huv1 (by norm_num)]
    linarith
  have hr0 : (0 : ℚ) ≤ u / (1 + u) := div_nonneg hu0 huu1.le
  have hr1 : u / (1 + u) ≤ 234 / 235 := by
    rw [div_le_div_iff₀ huu1 (by norm_num)]
    linarith
  set s := v / (1 + v) with hsdef
  set r := u / (1 + u) with hrdef
  refine ⟨?_, ?_, ?_, ?_⟩ <;>
    simp only [F8, dyn8t, cooperation_dynamics, ← hu, ← hv, hcoup1, hcoup2, ← hsdef,
      ← hrdef, h8]
  · nlinarith [mul_nonneg hu0 hs0, mul_nonneg hu0 (sub_nonneg.2 hu1)]
  · nlinarith [sq_nonneg (u - 234), mul_nonneg hu0 (sub_nonneg.2 hs1)]
  · nlinarith [mul_nonneg hv0 hr0, mul_nonneg hv0 (sub_nonneg.2 hv1)]
  · nlinarith [sq_nonneg (v - 150), mul_nonneg hv0 (sub_nonneg.2 hr1)]

/-- One grid step is monotone (componentwise) on the invariant region. -/
theorem mono8_step (u v u' v' : ℚ) (hx : Inv8 (u, v)) (hy : Inv8 (u', v'))
    (h1 : u ≤ u') (h2 : v ≤ v') : le2 (F8 (u, v)) (F8 (u', v')) := by
  obtain ⟨hu0, hu1, hv0, hv1⟩ := hx
  obtain ⟨hu0', hu1', hv0', hv1'⟩ := hy
  dsimp only at hu0 hu1 hv0 hv1 hu0' hu1' hv0' hv1'
  have hv' : (0 : ℚ) < 1 + v := by linarith
  have hv'' : (0 : ℚ) < 1 + v' := by linarith
  have hu' : (0 : ℚ) < 1 + u := by linarith
  have hu'' : (0 : ℚ) < 1 + u' := by linarith
  have hsmono : v / (1 + v) ≤ v' / (1 + v') := by
    rw [div_le_div_iff₀ hv' hv'']
    nlinarith
  have hrmono : u / (1 + u) ≤ u' / (1 + u') := by
    rw [div_le_div_iff₀ hu' hu'']
    nlinarith
  have hs0 : (0 : ℚ) ≤ v / (1 + v) := div_nonneg hv0 hv'.le
  have hr0 : (0 : ℚ) ≤ u / (1 + u) := div_nonneg hu0 hu'.le
  have hcmono1 : u * (v / (1 + v)) ≤ u' * (v' / (1 + v')) :=
    mul_le_mul h1 hsmono hs0 hu0'
  have hcmono2 : v * (u / (1 + u)) ≤ v' * (u' / (1 + u')) :=
    mul_le_mul h2 hrmono hr0 hv0'
  have hlog1 : u + 50/599 * ((3/10) * u * (1 - u / 100)) ≤
      u' + 50/599 * ((3/10) * u' * (1 - u' / 100)) := by
    have hc : (0 : ℚ) ≤ 1 + 50/599 * (3/10) * (1 - (u + u') / 100) := by
      linarith
    nlinarith [mul_nonneg (sub_nonneg.2 h1) hc]
  have hlog2 : v + 50/599 * ((1/5) * v * (1 - v / 100)) ≤
      v' + 50/599 * ((1/5) * v' * (1 - v' / 100)) := by
    have hc : (0 : ℚ) ≤ 1 + 50/599 * (1/5) * (1 - (v + v') / 100) := by
      linarith
    nlinarith [mul_nonneg (sub_nonneg.2 h2) hc]
  have hcoupx1 : (2/5 : ℚ) * u * v / (1 + v) = (2/5) * (u * (v / (1 + v))) := by
    field_simp
    ring
  have hcoupy1 : (2/5 : ℚ) * u' * v' / (1 + v') = (2/5) * (u' * (v' / (1 + v'))) := by
    field_simp
    ring
  have hcoupx2 : (1/10 : ℚ) * u * v / (1 + u) = (1/10) * (v * (u / (1 + u))) := by
    field_simp
    ring
  have hcoupy2 : (1/10 : ℚ) * u' * v' / (1 + u') = (1/10) * (v' * (u' / (1 + u'))) := by
    field_simp
    ring
  have hB1 : (50/599 : ℚ) * ((2/5) * (u * (v / (1 + v)))) ≤
      (50/599) * ((2/5) * (u' * (v' / (1 + v')))) := by
    have := mul_le_mul_of_nonneg_left hcmono1 (by norm_num : (0 : ℚ) ≤ 2/5)
    exact mul_le_mul_of_nonneg_left this (by norm_num)
  have hB2 : (50/599 : ℚ) * ((1/10) * (v * (u / (1 + u)))) ≤
      (50/599) * ((1/10) * (v' * (u' / (1 + u')))) := by
    have := mul_le_mul_of_nonneg_left hcmono2 (by norm_num : (0 : ℚ) ≤ 1/10)
    exact mul_le_mul_of_nonneg_left this (by norm_num)
  constructor <;>
    simp only [F8, dyn8t, cooperation_dynamics, h8]
  · rw [hcoupx1, hcoupy1, mul_add, mul_add, ← add_assoc, ← add_assoc]
    exact add_le_add hlog1 hB1
  · rw [hcoupx2, hcoupy2, mul_add, mul_add, ← add_assoc, ← add_assoc]
    exact add_le_add hlog2 hB2

/-- The first state produced by the stepper is the starting state. -/
theorem eulerFrom_head (f : ℚ × ℚ → ℚ → ℚ × ℚ) (x : ℚ × ℚ) (t : ℚ)
    (ts : List ℚ) : (eulerFrom f x t ts).head? = some x := by
  cases ts <;> rfl

/-- Across a gap of exactly `h8`, the stepper's update is `F8`. -/
theorem eulerStep_dyn8 (x : ℚ × ℚ) (t dt : ℚ) (h : dt = h8) :
    eulerStep dyn8t x t dt = F8 x := by
  rw [h]
  rfl

/-- Key induction: starting inside the invariant region with a nondecreasing
first step, the whole stepped trajectory over an `h8`-spaced grid is a
componentwise nondecreasing chain. -/
theorem chain8 : ∀ (ts : List ℚ) (t : ℚ) (x : ℚ × ℚ), Inv8 x → le2 x (F8 x) →
    List.Chain' (fun t1 t2 => t2 - t1 = h8) (t :: ts) →
    List.Chain' le2 (eulerFrom dyn8t x t ts)
  | [], _, x, _, _, _ => by simp [eulerFrom]
  | t' :: ts, t, x, hinv, hle, hgap => by
    rw [List.chain'_cons] at hgap
    obtain ⟨hg, hgap'⟩ := hgap
    show List.Chain' le2 (x :: eulerFrom dyn8t (eulerStep dyn8t x t (t' - t)) t' ts)
    rw [eulerStep_dyn8 x t (t' - t) hg]
    have hinv' : Inv8 (F8 x) := inv8_step x hinv
    have hle' : le2 (F8 x) (F8 (F8 x)) :=
      mono8_step x.1 x.2 (F8 x).1 (F8 x).2 hinv hinv' hle.1 hle.2
    rw [List.chain'_cons']
    refine ⟨?_, chain8 ts t' (F8 x) hinv' hle' hgap'⟩
    intro y hy
    rw [eulerFrom_head] at hy
    rw [Option.mem_some_iff] at hy
    rw [hy] at hle
    exact hle

/-- The default 50-year grid has all consecutive gaps equal to `h8`. -/
theorem tgrid50_gaps :
    List.Chain' (fun t1 t2 => t2 - t1 = h8) (sim_tgrid 50) := by
  unfold sim_tgrid linspace
  rw [List.chain'_map]
  rw [show (50 * 12 - 1 : ℕ) = 599 from by norm_num,
    show (50 * 12 : ℕ) = 599 + 1 from by norm_num]
  rw [List.chain'_range_succ]
  intro m hm
  simp only [h8]
  push_cast
  ring_nf

/-- The trajectory of the spec's concrete scenario: parameters
`(a, b, c, d) = (0.3, 0.4, 0.2, 0.1)`, initial state `(20, 20)`, grid of 600
points over 50 years. -/
def c8_solution : List (ℚ × ℚ) := odeint dyn8t (20, 20) (sim_tgrid 50)

set_option maxRecDepth 8192 in
/-- Claim C8: with parameters `a = 0.3`, `b = 0.4`, `c = 0.2`, `d = 0.1`,
initial state `[20, 20]` and the 600-point 50-year grid, the simulated
trajectory is monotonically non-decreasing in both components at every
consecutive pair of grid points. -/
theorem claim8_monotone_trajectory : List.Chain' le2 c8_solution := by
  have hne : sim_tgrid 50 ≠ [] := by
    unfold sim_tgrid linspace
    simp
  obtain ⟨t0, rest, hgrid⟩ := List.exists_cons_of_ne_nil hne
  have hgaps := tgrid50_gaps
  rw [hgrid] at hgaps
  unfold c8_solution
  rw [hgrid]
  show List.Chain' le2 (eulerFrom dyn8t (20, 20) t0 rest)
  refine chain8 rest t0 (20, 20) ?_ ?_ hgaps
  · refine ⟨?_, ?_, ?_, ?_⟩ <;> norm_num
  · refine ⟨?_, ?_⟩ <;>
      simp only [F8, dyn8t, cooperation_dynamics] <;> norm_num [h8]

/-- Two-digit rendering of a value `n < 100` (the fractional part of the
`:.2f` format). -/
def pad2 (n : ℕ) : String :=
  if n < 10 then "0" ++ toString n else toString n

/-- Round a nonnegative rational to the nearest integer, ties to even — the
rounding Python float formatting applies to the last kept digit. -/
def round_half_even (q : ℚ) : ℤ :=
  if q - ⌊q⌋ < 1/2 then ⌊q⌋
  else if 1/2 < q - ⌊q⌋ then ⌊q⌋ + 1
  else if ⌊q⌋ % 2 = 0 then ⌊q⌋ else ⌊q⌋ + 1

/-- The`:.2f` float format of Python, modelled over exact rationals: sign,
integer part, dot, exactly two fractional digits, the value rounded
half-to-even at the second decimal. -/
def format2f (q : ℚ) : String :=
  let c := (round_half_even ((if q < 0 then -q else q) * 100)).toNat
  let s := toString (c / 100) ++ "." ++ pad2 (c % 100)
  if q < 0 then "-" ++ s else s

/-- One iteration of the report loop
`for metric, value in metrics.items(): report += f"..."`. -/
def report_line (acc : String) (p : String × ℚ) : String :=
  acc ++ (p.1 ++ ": " ++ format2f p.2 ++ "\n")

/-- `generate_report(self, metrics)`: the successive `report +=` string
assembly, with the metrics dict modelled as an insertion-ordered association
list. -/
def generate_report (m : Model) (metrics : List (String × ℚ)) : String :=
  let report := "International Cooperation Analysis\n"
  let report := report ++ "===============================\n\n"
  let report := report ++ "Model Parameters:\n"
  let report := report ++ ("Technology Transfer Rate: " ++ format2f m.tech_transfer_rate ++ "\n")
  let report := report ++ ("Trade Growth Rate: " ++ format2f m.trade_growth_rate ++ "\n")
  let report := report ++ ("Collaboration Factor: " ++ format2f m.collaboration_factor ++ "\n")
  let report := report ++ ("Resource Constraint: " ++ format2f m.resource_constraint ++ "\n\n")
  let report := report ++ "Results:\n"
  metrics.foldl report_line report

/-- Evaluation of the modelled `:.2f` format at `0.3`. -/
theorem format2f_of_tech : format2f (3/10) = "0.30" := by
  have h0 : ¬ ((3/10 : ℚ) < 0) := by norm_num
  have hr : round_half_even ((3/10 : ℚ) * 100) = 30 := by
    rw [show ((3/10 : ℚ) * 100) = 30 from by norm_num]
    unfold round_half_even
    norm_num
  simp only [format2f, hr, if_neg h0]
  rfl

/-- Evaluation of the modelled `:.2f` format at `0.2`. -/
theorem format2f_of_trade : format2f (1/5) = "0.20" := by
  have h0 : ¬ ((1/5 : ℚ) < 0) := by norm_num
  have hr : round_half_even ((1/5 : ℚ) * 100) = 20 := by
    rw [show ((1/5 : ℚ) * 100) = 20 from by norm_num]
    unfold round_half_even
    norm_num
  simp only [format2f, hr, if_neg h0]
  rfl

/-- Evaluation of the modelled `:.2f` format at `0.4`. -/
theorem format2f_of_collab : format2f (2/5) = "0.40" := by
  have h0 : ¬ ((2/5 : ℚ) < 0) := by norm_num
  have hr : round_half_even ((2/5 : ℚ) * 100) = 40 := by
    rw [show ((2/5 : ℚ) * 100) = 40 from by norm_num]
    unfold round_half_even
    norm_num
  simp only [format2f, hr, if_neg h0]
  rfl

/-- Evaluation of the modelled `:.2f` format at `0.1`. -/
theorem format2f_of_resource : format2f (1/10) = "0.10" := by
  have h0 : ¬ ((1/10 : ℚ) < 0) := by norm_num
  have hr : round_half_even ((1/10 : ℚ) * 100) = 10 := by
    rw [show ((1/10 : ℚ) * 100) = 10 from by norm_num]
    unfold round_half_even
    norm_num
  simp only [format2f, hr, if_neg h0]
  rfl

/-- Claim C9: for every metrics mapping with the four metric entries, the
report is the fixed-structure text: the title block, then exactly the four
parameter lines (each value rendered by the 2-decimal formatter; at the
program's default parameters these render as 0.30, 0.20, 0.40, 0.10), then
the results header and exactly the four metric lines in the fixed order
Region 1 Final Level, Region 2 Final Level, Total Growth, Synergy Index,
each value rendered by the 2-decimal formatter. -/
theorem claim9_report_structure :
    (∀ (m : Model) (v1 v2 v3 v4 : ℚ),
      generate_report m
          [("Region 1 Final Level", v1), ("Region 2 Final Level", v2),
           ("Total Growth", v3), ("Synergy Index", v4)] =
        "International Cooperation Analysis\n" ++
          "===============================\n\n" ++
          "Model Parameters:\n" ++
          ("Technology Transfer Rate: " ++ format2f m.tech_transfer_rate ++ "\n") ++
          ("Trade Growth Rate: " ++ format2f m.trade_growth_rate ++ "\n") ++
          ("Collaboration Factor: " ++ format2f m.collaboration_factor ++ "\n") ++
          ("Resource Constraint: " ++ format2f m.resource_constraint ++ "\n\n") ++
          "Results:\n" ++
          ("Region 1 Final Level" ++ ": " ++ format2f v1 ++ "\n") ++
          ("Region 2 Final Level" ++ ": " ++ format2f v2 ++ "\n") ++
          ("Total Growth" ++ ": " ++ format2f v3 ++ "\n") ++
          ("Synergy Index" ++ ": " ++ format2f v4 ++ "\n")) ∧
      format2f (3/10) = "0.30" ∧ format2f (1/5) = "0.20" ∧
      format2f (2/5) = "0.40" ∧ format2f (1/10) = "0.10" :=
  ⟨fun _ _ _ _ _ => rfl, format2f_of_tech, format2f_of_trade,
    format2f_of_collab, format2f_of_resource⟩

end CoopModel
